import Mathlib

/-!
Shallow embedding of `src/Database.ts` from the sap-database repository.

The repository contains two coexisting `Database` classes:
* a single-backend (SAP HANA only) variant, configured at construction
  (lines 14-181 of `Database.ts`), embedded in namespace `SapDb.Single`;
* a multi-backend (HANA / MSSQL / POSTGRES) variant, configured at
  connect time (lines 200-491), embedded in namespace `SapDb.Multi`.

Query and parameter texts are modelled as `List Char` (JS strings).
Native driver calls are modelled by oracles (`Bool` arguments giving the
native outcome) and by explicit effect traces (`Effect` lists) recording
which native operations the code performs, in order.
-/

set_option maxHeartbeats 1000000

deriving instance DecidableEq for Except

namespace SapDb

/-- JS `String.prototype.trim`: drop whitespace from both ends. -/
def strTrim (s : List Char) : List Char :=
  ((s.dropWhile Char.isWhitespace).reverse.dropWhile Char.isWhitespace).reverse

/-- A string is blank when it is empty after trimming.  This is exactly the
JS test `!s || !s.trim()` used by the single-backend constructor. -/
def isBlank (s : List Char) : Bool := (strTrim s).isEmpty

/-- JS `String.prototype.toUpperCase` (ASCII fragment, as used on the
backend-kind strings `"HANA"`, `"MSSQL"`, `"POSTGRES"`). -/
def toUpperStr (s : List Char) : List Char := s.map Char.toUpper

/-- Decimal digits of a natural number, fuel-indexed so that the definition
is structurally recursive and computable by the kernel. -/
def natDigitsAux : Nat → Nat → List Char
  | 0, _ => []
  | fuel + 1, n =>
    if n < 10 then [Nat.digitChar n]
    else natDigitsAux fuel (n / 10) ++ [Nat.digitChar (n % 10)]

/-- Decimal rendering of a natural number, as produced by a JS template
literal such as a backtick-quoted interpolation of a loop counter. -/
def natDigits (n : Nat) : List Char := natDigitsAux (n + 1) n

/-- Decimal value of a digit string; inverse of `natDigits`. -/
def digitsVal (l : List Char) : Nat :=
  l.foldl (fun a c => 10 * a + (c.toNat - 48)) 0

theorem digitChar_toNat : ∀ k : Nat, k < 10 → (Nat.digitChar k).toNat = 48 + k := by
  intro k hk
  interval_cases k <;> decide

theorem digitChar_ne_qmark : ∀ k : Nat, k < 10 → Nat.digitChar k ≠ '?' := by
  intro k hk
  interval_cases k <;> decide

theorem natDigitsAux_mem (fuel : Nat) :
    ∀ n c, c ∈ natDigitsAux fuel n → ∃ k, k < 10 ∧ c = Nat.digitChar k := by
  induction fuel with
  | zero => intro n c hc; simp [natDigitsAux] at hc
  | succ fuel ih =>
    intro n c hc
    by_cases hn : n < 10
    · simp [natDigitsAux, hn] at hc
      exact ⟨n, hn, hc⟩
    · simp [natDigitsAux, hn] at hc
      rcases hc with hc | hc
      · exact ih _ _ hc
      · exact ⟨n % 10, Nat.mod_lt _ (by omega), hc⟩

theorem natDigitsAux_val (fuel : Nat) :
    ∀ n, n < fuel → digitsVal (natDigitsAux fuel n) = n := by
  induction fuel with
  | zero => intro n hn; omega
  | succ fuel ih =>
    intro n hn
    by_cases h10 : n < 10
    · simp [natDigitsAux, h10, digitsVal, digitChar_toNat n h10]
    · have hdiv : n / 10 < fuel := by
        have h1 : n / 10 < n := Nat.div_lt_self (by omega) (by omega)
        omega
      simp only [natDigitsAux, h10, if_false, digitsVal, List.foldl_append,
        List.foldl_cons, List.foldl_nil]
      have := ih (n / 10) hdiv
      simp only [digitsVal] at this
      rw [this, digitChar_toNat (n % 10) (Nat.mod_lt _ (by omega))]
      omega

theorem digitsVal_natDigits (n : Nat) : digitsVal (natDigits n) = n :=
  natDigitsAux_val (n + 1) n (Nat.lt_succ_self n)

theorem natDigits_injective : Function.Injective natDigits := by
  intro a b h
  have := congrArg digitsVal h
  rwa [digitsVal_natDigits, digitsVal_natDigits] at this

theorem natDigits_mem (n : Nat) :
    ∀ c, c ∈ natDigits n → ∃ k, k < 10 ∧ c = Nat.digitChar k :=
  fun c hc => natDigitsAux_mem (n + 1) n c hc

/-! ### Substitution of the `{db}` token (`query.replace(/{db}/g, this.database)`) -/

/-- Whether the string begins with the literal token `{db}`. -/
def startsTok : List Char → Bool
  | c1 :: c2 :: c3 :: c4 :: _ =>
    decide (c1 = '{') && decide (c2 = 'd') && decide (c3 = 'b') && decide (c4 = '}')
  | _ => false

/-- Global, left-to-right, non-overlapping replacement of every literal
occurrence of the token `{db}`, mirroring `query.replace(/{db}/g, db)`.
Patterns are split by length so that every equation is unconditional; a
string of fewer than four characters cannot contain the token.
(The replacement strings fed to it by this code are schema names, for which
the JS dollar-escape sequences of `String.replace` do not arise.) -/
def replaceDb : List Char → List Char → List Char
  | [], _ => []
  | [c1], _ => [c1]
  | [c1, c2], _ => [c1, c2]
  | [c1, c2, c3], _ => [c1, c2, c3]
  | c1 :: c2 :: c3 :: c4 :: rest, repl =>
    if c1 = '{' ∧ c2 = 'd' ∧ c3 = 'b' ∧ c4 = '}' then repl ++ replaceDb rest repl
    else c1 :: replaceDb (c2 :: c3 :: c4 :: rest) repl

/-- Whether the string contains an occurrence of the literal token `{db}`. -/
def hasDbTok : List Char → Bool
  | [] => false
  | c :: t => startsTok (c :: t) || hasDbTok t

theorem replaceDb_nil (repl : List Char) : replaceDb [] repl = [] := rfl

theorem replaceDb_tok (b repl : List Char) :
    replaceDb ('{' :: 'd' :: 'b' :: '}' :: b) repl = repl ++ replaceDb b repl := by
  simp [replaceDb]

theorem replaceDb_cons_of_not_tok {c : Char} {t : List Char} (repl : List Char)
    (h : startsTok (c :: t) = false) :
    replaceDb (c :: t) repl = c :: replaceDb t repl := by
  match t with
  | [] => rfl
  | [a] => rfl
  | [a, b] => rfl
  | a :: b :: d :: r =>
    have hcond : ¬(c = '{' ∧ a = 'd' ∧ b = 'b' ∧ d = '}') := by
      simp [startsTok] at h
      tauto
    simp only [replaceDb, if_neg hcond]

theorem hasDbTok_cons_elim {c : Char} {t : List Char} (h : hasDbTok (c :: t) = false) :
    hasDbTok t = false := by
  simp [hasDbTok] at h
  exact h.2

theorem hasDbTok_cons_starts {c : Char} {t : List Char} (h : hasDbTok (c :: t) = false) :
    startsTok (c :: t) = false := by
  simp [hasDbTok] at h
  exact h.1

theorem replaceDb_no_tok {s : List Char} (repl : List Char) (h : hasDbTok s = false) :
    replaceDb s repl = s := by
  induction s with
  | nil => rfl
  | cons c t ih =>
    rw [replaceDb_cons_of_not_tok repl (hasDbTok_cons_starts h),
      ih (hasDbTok_cons_elim h)]

theorem startsTok_append_tok_false {c : Char} {t : List Char} (b : List Char)
    (h : hasDbTok (c :: t) = false) :
    startsTok (c :: (t ++ '{' :: 'd' :: 'b' :: '}' :: b)) = false := by
  match t with
  | [] => simp [startsTok]
  | [a] => simp [startsTok]
  | [a, a2] => simp [startsTok]
  | a :: a2 :: a3 :: r =>
    have := hasDbTok_cons_starts h
    simpa [startsTok] using this

theorem replaceDb_append_tok {a : List Char} (b repl : List Char)
    (h : hasDbTok a = false) :
    replaceDb (a ++ '{' :: 'd' :: 'b' :: '}' :: b) repl = a ++ repl ++ replaceDb b repl := by
  induction a with
  | nil => simpa using replaceDb_tok b repl
  | cons c t ih =>
    rw [List.cons_append,
      replaceDb_cons_of_not_tok repl (startsTok_append_tok_false b h),
      ih (hasDbTok_cons_elim h)]
    simp

/-! ### MSSQL positional-placeholder rewriting

The MSSQL branch of `executeQuery` (lines 419-435) runs

  let finalQuery = q;
  if (parameters.length > 0) {
    let i = 0;
    while (/\?/.test(finalQuery)) {
      finalQuery = finalQuery.replace("?", at-mssqlboundparm i++);
    }
  }

and then binds `req.input("mssqlboundparm" ++ i, parameters[i])` for each
`i < parameters.length`.  The loop is embedded fuel-indexed (fuel = number
of `?` characters); `mssqlRewriteLoop_eq` below proves the fuel version
satisfies exactly the while-loop fixpoint equation. -/

/-- Number of `?` characters in a string (the loop guard `/\?/.test`). -/
def countQ (s : List Char) : Nat := s.countP (fun c => decide (c = '?'))

/-- Replacement text for the i-th rewritten placeholder:
the JS template literal producing `@mssqlboundparm` followed by `i`. -/
def paramName (i : Nat) : List Char := "@mssqlboundparm".data ++ natDigits i

/-- Bound-parameter name passed to `req.input`:
`mssqlboundparm` followed by `i` (no leading `@`). -/
def inputName (i : Nat) : List Char := "mssqlboundparm".data ++ natDigits i

/-- JS `s.replace("?", repl)`: replace the first occurrence of `?`, or
return `none` when the string contains no `?` (loop guard false). -/
def replaceFirstQ : List Char → List Char → Option (List Char)
  | [], _ => none
  | c :: rest, repl =>
    if c = '?' then some (repl ++ rest)
    else (replaceFirstQ rest repl).map (c :: ·)

/-- Fuel-indexed unrolling of the rewrite `while` loop. -/
def mssqlLoopFuel : Nat → List Char → Nat → List Char
  | 0, s, _ => s
  | fuel + 1, s, i =>
    match replaceFirstQ s (paramName i) with
    | none => s
    | some s' => mssqlLoopFuel fuel s' (i + 1)

/-- The rewrite `while` loop of the MSSQL branch, started at counter `i`.
Fuel `countQ s` suffices because each iteration consumes one `?` and the
replacement text contains none. -/
def mssqlRewriteLoop (s : List Char) (i : Nat) : List Char :=
  mssqlLoopFuel (countQ s) s i

/-- Specification-shaped single pass: each `?`, left to right, becomes the
uniquely indexed name; every other character is kept. -/
def rewriteAux : List Char → Nat → List Char
  | [], _ => []
  | c :: rest, i =>
    if c = '?' then paramName i ++ rewriteAux rest (i + 1)
    else c :: rewriteAux rest i

/-- Bindings installed by the `req.input` loop: the i-th parameter value
bound under the i-th generated name. -/
def mssqlBindings {α : Type} (params : List α) : List (List Char × α) :=
  params.enum.map (fun p => (inputName p.1, p.2))

/-- The complete MSSQL translation step: rewritten text plus bindings when
at least one parameter was supplied, the raw text and no bindings
otherwise (lines 419-435). -/
def mssqlPrepare {α : Type} (q : List Char) (params : List α) :
    List Char × List (List Char × α) :=
  if params.length > 0 then (mssqlRewriteLoop q 0, mssqlBindings params)
  else (q, [])

theorem countQ_nil : countQ [] = 0 := rfl

theorem countQ_cons (c : Char) (t : List Char) :
    countQ (c :: t) = (if c = '?' then 1 else 0) + countQ t := by
  by_cases hc : c = '?'
  · simp [countQ, List.countP_cons, hc, Nat.add_comm]
  · simp [countQ, List.countP_cons, hc]

theorem countQ_qmark_cons (b : List Char) : countQ ('?' :: b) = countQ b + 1 := by
  simp [countQ, List.countP_cons]

theorem countQ_append (a b : List Char) : countQ (a ++ b) = countQ a + countQ b := by
  simp [countQ, List.countP_append]

theorem countQ_eq_zero {s : List Char} : countQ s = 0 ↔ ∀ c ∈ s, c ≠ '?' := by
  simp [countQ, List.countP_eq_zero]

theorem paramName_countQ (i : Nat) : countQ (paramName i) = 0 := by
  rw [countQ_eq_zero]
  intro c hc
  simp only [paramName, List.mem_append] at hc
  rcases hc with hc | hc
  · have hall : ∀ x ∈ "@mssqlboundparm".data, x ≠ '?' := by decide
    exact hall c hc
  · obtain ⟨k, hk, rfl⟩ := natDigits_mem i c hc
    exact digitChar_ne_qmark k hk

theorem paramName_injective : Function.Injective paramName := by
  intro a b h
  exact natDigits_injective (List.append_cancel_left h)

theorem inputName_injective : Function.Injective inputName := by
  intro a b h
  exact natDigits_injective (List.append_cancel_left h)

theorem replaceFirstQ_none {s : List Char} (repl : List Char) :
    replaceFirstQ s repl = none ↔ countQ s = 0 := by
  induction s with
  | nil => simp [replaceFirstQ, countQ_nil]
  | cons c t ih =>
    by_cases hc : c = '?'
    · simp [replaceFirstQ, hc, countQ_cons]
    · simp [replaceFirstQ, hc, countQ_cons, ih]

theorem replaceFirstQ_some {s repl s' : List Char}
    (h : replaceFirstQ s repl = some s') :
    ∃ a b, s = a ++ '?' :: b ∧ countQ a = 0 ∧ s' = a ++ repl ++ b := by
  induction s generalizing s' with
  | nil => simp [replaceFirstQ] at h
  | cons c t ih =>
    by_cases hc : c = '?'
    · subst hc
      simp only [replaceFirstQ, if_pos, Option.some.injEq] at h
      exact ⟨[], t, by simp, rfl, by simp [← h]⟩
    · simp only [replaceFirstQ, if_neg hc, Option.map_eq_some'] at h
      obtain ⟨t', ht', rfl⟩ := h
      obtain ⟨a, b, rfl, ha, rfl⟩ := ih ht'
      exact ⟨c :: a, b, rfl, by simp [countQ_cons, hc, ha], rfl⟩

theorem rewriteAux_of_countQ_zero {s : List Char} (i : Nat) (h : countQ s = 0) :
    rewriteAux s i = s := by
  induction s generalizing i with
  | nil => rfl
  | cons c t ih =>
    rw [countQ_cons] at h
    have hc : ¬c = '?' := by
      intro hc; simp [hc] at h
    rw [rewriteAux, if_neg hc, ih i (by omega)]

theorem rewriteAux_append_free {a : List Char} (t : List Char) (i : Nat)
    (h : countQ a = 0) :
    rewriteAux (a ++ t) i = a ++ rewriteAux t i := by
  induction a with
  | nil => simp
  | cons c a' ih =>
    rw [countQ_cons] at h
    have hc : ¬c = '?' := by
      intro hc; simp [hc] at h
    rw [List.cons_append, rewriteAux, if_neg hc, ih (by omega)]
    simp

theorem rewriteAux_countQ (s : List Char) (i : Nat) :
    countQ (rewriteAux s i) = 0 := by
  induction s generalizing i with
  | nil => rfl
  | cons c t ih =>
    by_cases hc : c = '?'
    · rw [rewriteAux, if_pos hc, countQ_append, paramName_countQ, ih]
    · rw [rewriteAux, if_neg hc, countQ_cons, if_neg hc, ih]

theorem rewriteAux_decomp {a : List Char} (b : List Char) (i : Nat)
    (ha : countQ a = 0) :
    rewriteAux (a ++ '?' :: b) i = a ++ paramName i ++ rewriteAux b (i + 1) := by
  rw [rewriteAux_append_free _ _ ha, rewriteAux, if_pos rfl]
  simp

theorem rewriteAux_insert (a b : List Char) (i : Nat) (ha : countQ a = 0) :
    rewriteAux (a ++ paramName i ++ b) (i + 1) = a ++ paramName i ++ rewriteAux b (i + 1) := by
  rw [List.append_assoc, rewriteAux_append_free _ _ ha,
    rewriteAux_append_free _ _ (paramName_countQ i)]
  simp

theorem mssqlLoopFuel_eq_rewriteAux {fuel : Nat} :
    ∀ s i, countQ s ≤ fuel → mssqlLoopFuel fuel s i = rewriteAux s i := by
  induction fuel with
  | zero =>
    intro s i h
    have h0 : countQ s = 0 := by omega
    rw [mssqlLoopFuel, rewriteAux_of_countQ_zero i h0]
  | succ fuel ih =>
    intro s i h
    cases hr : replaceFirstQ s (paramName i) with
    | none =>
      have h0 := (replaceFirstQ_none _).mp hr
      rw [rewriteAux_of_countQ_zero i h0]
      show mssqlLoopFuel (fuel + 1) s i = s
      rw [mssqlLoopFuel, hr]
    | some s' =>
      have hstep : mssqlLoopFuel (fuel + 1) s i = mssqlLoopFuel fuel s' (i + 1) := by
        rw [mssqlLoopFuel, hr]
      rw [hstep]
      obtain ⟨a, b, rfl, ha, rfl⟩ := replaceFirstQ_some hr
      have hcount : countQ (a ++ '?' :: b) = countQ b + 1 := by
        rw [countQ_append, ha, countQ_qmark_cons]; omega
      have hcount' : countQ (a ++ paramName i ++ b) = countQ b := by
        rw [countQ_append, countQ_append, ha, paramName_countQ]; omega
      rw [ih _ (i + 1) (by omega), rewriteAux_insert a b i ha,
        rewriteAux_decomp b i ha]

theorem mssqlRewriteLoop_eq_rewriteAux (s : List Char) (i : Nat) :
    mssqlRewriteLoop s i = rewriteAux s i :=
  mssqlLoopFuel_eq_rewriteAux s i (le_refl _)

/-- The while-loop fixpoint equation: the fuel-indexed embedding satisfies
exactly the recurrence of the source's rewrite loop. -/
theorem mssqlRewriteLoop_eq (s : List Char) (i : Nat) :
    mssqlRewriteLoop s i =
      match replaceFirstQ s (paramName i) with
      | none => s
      | some s' => mssqlRewriteLoop s' (i + 1) := by
  cases hr : replaceFirstQ s (paramName i) with
  | none =>
    have h0 := (replaceFirstQ_none _).mp hr
    show mssqlRewriteLoop s i = s
    rw [mssqlRewriteLoop_eq_rewriteAux, rewriteAux_of_countQ_zero i h0]
  | some s' =>
    show mssqlRewriteLoop s i = mssqlRewriteLoop s' (i + 1)
    obtain ⟨a, b, rfl, ha, rfl⟩ := replaceFirstQ_some hr
    rw [mssqlRewriteLoop_eq_rewriteAux, mssqlRewriteLoop_eq_rewriteAux,
      rewriteAux_decomp b i ha, rewriteAux_insert a b i ha]

theorem mssqlRewriteLoop_countQ (s : List Char) (i : Nat) :
    countQ (mssqlRewriteLoop s i) = 0 := by
  rw [mssqlRewriteLoop_eq_rewriteAux]; exact rewriteAux_countQ s i

/-- The (n+1)-th `?` occurrence (0-based index n), when it exists, is
rewritten to the name carrying index `i + n`; hence that name appears in
the rewritten text. -/
theorem paramName_infix_rewriteAux {s : List Char} :
    ∀ i n, n < countQ s → paramName (i + n) <:+: rewriteAux s i := by
  induction s with
  | nil => intro i n h; simp [countQ_nil] at h
  | cons c t ih =>
    intro i n h
    by_cases hc : c = '?'
    · rw [rewriteAux, if_pos hc]
      cases n with
      | zero =>
        exact ⟨[], rewriteAux t (i + 1), by simp⟩
      | succ m =>
        rw [countQ_cons, if_pos hc] at h
        have hm : m < countQ t := by omega
        have := ih (i + 1) m hm
        have harith : i + 1 + m = i + (m + 1) := by omega
        rw [harith] at this
        obtain ⟨u, v, huv⟩ := this
        exact ⟨paramName i ++ u, v, by rw [← huv]; simp⟩
    · rw [rewriteAux, if_neg hc]
      rw [countQ_cons, if_neg hc] at h
      have h' : n < countQ t := by omega
      obtain ⟨u, v, huv⟩ := ih i n h'
      exact ⟨c :: u, v, by rw [← huv]; simp⟩

theorem mssqlBindings_get? {α : Type} (params : List α) (k : Nat) :
    (mssqlBindings params).get? k = (params.get? k).map (fun v => (inputName k, v)) := by
  simp only [mssqlBindings, List.get?_map]
  rw [List.enum_get?]
  cases params.get? k <;> simp

theorem mssqlBindings_length {α : Type} (params : List α) :
    (mssqlBindings params).length = params.length := by
  simp [mssqlBindings]

theorem mssqlBindings_names {α : Type} (params : List α) :
    (mssqlBindings params).map Prod.fst = (List.range params.length).map inputName := by
  simp only [mssqlBindings, List.map_map, List.enum_eq_zip_range]
  have hstep : ((List.range params.length).zip params).map
      (Prod.fst ∘ fun p => (inputName p.1, p.2)) =
      (((List.range params.length).zip params).map Prod.fst).map inputName := by
    rw [List.map_map]
    rfl
  rw [hstep, List.map_fst_zip _ _ (by simp)]

theorem inputName_excess_unbound {α : Type} (params : List α) :
    inputName params.length ∉ (mssqlBindings params).map Prod.fst := by
  rw [mssqlBindings_names]
  intro hmem
  simp only [List.mem_map, List.mem_range] at hmem
  obtain ⟨k, hk, hkeq⟩ := hmem
  have := inputName_injective hkeq
  omega

/-! ### Shared data model -/

/-- Enum `DatabaseType` from `types.ts` (multi-backend variant). -/
inductive DatabaseType
  | HANA
  | MSSQL
  | POSTGRES
  deriving DecidableEq

/-- Interface `PoolSettings` from `types.ts`: optional `max`/`min` pool
sizing overrides (a field modelled `none` is an absent key). -/
structure PoolSettings where
  max : Option Nat
  min : Option Nat
  deriving DecidableEq

/-- Error kinds raised by the embedded code.  Each constructor stands for
one distinct thrown `Error`; the payload is the distinguishing part of its
message text.
* `invalidParam f`   — single-backend constructor: missing field `f`
  (message naming the field, lines 31-39);
* `invalidType t`    — multi-backend `connect`: unsupported kind `t`
  (lines 226-230);
* `connectionError`  — wrapper thrown by `connect` around a native
  connection failure (lines 56-60 / 250-252);
* `notConnected`     — the no-active-connection message of
  `query`/`executeQuery`/`procedure` (lines 122, 154, 373);
* `hanaPoolNotInit`, `pgPoolNotInit`, `mssqlNotInit` — the branch-specific
  not-initialized messages of `executeQuery` (lines 380, 402, 416);
* `disconnectionError` — wrapper thrown by `disconnect` (lines 176-178 /
  486-488). -/
inductive DbError
  | invalidParam (field : List Char)
  | invalidType (given : List Char)
  | connectionError
  | notConnected
  | hanaPoolNotInit
  | pgPoolNotInit
  | mssqlNotInit
  | disconnectionError
  deriving DecidableEq

/-- Native-layer operations performed by `connect`/`disconnect`, recorded
in order as an effect trace. -/
inductive Effect
  | createPool
  | acquire
  | release
  | createPgPool
  | createMssqlPool
  | drainPool
  | clearPool
  | endPgPool
  | awaitMssqlConnect
  | closeMssql
  deriving DecidableEq

/-- Interface `HanaConnectionParams` from `types.ts`. -/
structure HanaConnParams where
  serverNode : List Char
  UID : List Char
  PWD : List Char
  currentSchema : Option (List Char)
  communicationTimeout : Nat
  deriving DecidableEq

/-- The generic-pool instance built by `setConnDbHana`: its factory closes
over the connection parameters, its sizing is `{max: 10, min: 5}` merged
shallowly with the caller's `poolSettings`. -/
structure HanaPool where
  connParams : HanaConnParams
  max : Nat
  min : Nat
  deriving DecidableEq

/-- Host/port split used by the MSSQL and PostgreSQL adapters:
`server.split(":")` with `parts[0]` as host and `parts[1]` (when a `:` is
present) as the port text (its JS numeric conversion is kept as raw text;
no claim depends on it). -/
def splitHostPort (s : List Char) : List Char × Option (List Char) :=
  if s.contains ':' then
    let parts := s.splitOn ':'
    (parts.headD [], parts.get? 1)
  else (s, none)

/-- The `mssql.ConnectionPool` configuration built by `setConnDbSql`. -/
structure MssqlConfig where
  server : List Char
  port : Option (List Char)
  user : List Char
  password : List Char
  database : List Char
  connectionTimeout : Nat
  requestTimeout : Nat
  deriving DecidableEq

/-- The `pg.Pool` configuration built by `setConnDbPostgres`. -/
structure PgConfig where
  host : List Char
  port : Option (List Char)
  user : List Char
  password : List Char
  database : List Char
  idleTimeoutMillis : Nat
  connectionTimeoutMillis : Nat
  poolSettings : Option PoolSettings
  deriving DecidableEq

/-- Effective pool sizing: `{max: 10, min: 5, ...poolSettings}` with the
shallow-merge convention that an absent caller key keeps the default. -/
def effectiveMax (ps : Option PoolSettings) : Nat :=
  match ps with
  | none => 10
  | some s => s.max.getD 10

def effectiveMin (ps : Option PoolSettings) : Nat :=
  match ps with
  | none => 5
  | some s => s.min.getD 5

/-- The work item a query dispatches to the native layer: which backend
executes, the final query text, and the positional values or named
bindings handed to the driver. -/
inductive Work (α : Type)
  | hana (text : List Char) (params : List α)
  | pg (text : List Char) (params : List α)
  | mssqlRaw (text : List Char)
  | mssqlBound (text : List Char) (bindings : List (List Char × α))
  deriving DecidableEq

/-- The placeholder list built by both procedure methods:
`parameters.map(() => "?").join(",")` — one literal `?` per parameter,
comma-separated. -/
def placeholders {α : Type} (params : List α) : List Char :=
  List.intercalate [','] (params.map (fun _ => ['?']))

/-! ### Single-backend variant (`Database.ts` lines 14-181) -/

namespace Single

/-- Interface `DatabaseConnectionParams` of the single-backend `types.ts`
(`database` optional, no `databaseType`). -/
structure ConnectionParams where
  server : List Char
  database : Option (List Char)
  username : List Char
  password : List Char
  timeout : Option Nat
  poolSettings : Option PoolSettings
  deriving DecidableEq

/-- Fields of the single-backend `Database` class. -/
structure Database where
  database : List Char
  username : List Char
  password : List Char
  server : List Char
  timeout : Nat
  poolSettings : Option PoolSettings
  pool : Option SapDb.HanaPool
  deriving DecidableEq

/-- The constructor (lines 30-47): validates that `server`, `username` and
`password` are non-blank (JS test `!v || !v.trim()`), then stores the
fields; `database` defaults to the empty string (`params.database || ""`),
`timeout` to 600000 (`params.timeout ?? 600000`).  No pool exists yet. -/
def mkDatabase (params : ConnectionParams) : Except DbError Database :=
  if isBlank params.server then .error (.invalidParam "server".data)
  else if isBlank params.username then .error (.invalidParam "username".data)
  else if isBlank params.password then .error (.invalidParam "password".data)
  else .ok
    { database := params.database.getD []
      username := params.username
      password := params.password
      server := params.server
      timeout := params.timeout.getD 600000
      poolSettings := params.poolSettings
      pool := none }

/-- Connection parameters built by `setConnDbHana` (lines 67-78):
`currentSchema` is included only when the database name is non-blank
(`this.database && this.database.trim() !== ""`). -/
def hanaConnParams (db : Database) : SapDb.HanaConnParams :=
  { serverNode := db.server
    UID := db.username
    PWD := db.password
    currentSchema := if isBlank db.database then none else some db.database
    communicationTimeout := db.timeout }

/-- The method `connect` / `setConnDbHana` (lines 53-111).  The pool is
assigned to `this.pool` at line 101, and only then is the connectivity
probe performed (acquire at line 109, release at line 110).  `probeOk`
is the oracle for the native acquire (pool factory `create`): when it
fails, `connect` throws the wrapped connection error, but the pool field
keeps the already-assigned pool.  The effect trace records the native
operations in order. -/
def connect (db : Database) (probeOk : Bool) :
    Database × List Effect × Except DbError Unit :=
  let pool : SapDb.HanaPool :=
    { connParams := hanaConnParams db
      max := effectiveMax db.poolSettings
      min := effectiveMin db.poolSettings }
  let db1 := { db with pool := some pool }
  if probeOk then (db1, [.createPool, .acquire, .release], .ok ())
  else (db1, [.createPool, .acquire], .error .connectionError)

/-- Line 126: `this.database ? query.replace(/{db}/g, this.database) : query`. -/
def substDb (database query : List Char) : List Char :=
  if database.isEmpty then query else replaceDb query database

/-- The method `query` (lines 120-143): `NotConnected` guard when no pool
is stored, `{db}` substitution, then dispatch of the final text and the
positional parameters to the HANA driver. -/
def query {α : Type} (db : Database) (queryText : List Char) (params : List α) :
    Except DbError (Work α) :=
  match db.pool with
  | none => .error .notConnected
  | some _ => .ok (.hana (substDb db.database queryText) params)

/-- The procedure call text built at lines 157-159:
`CALL ${schemaPrefix}"${name}"(${placeholders})` where `schemaPrefix` is
`{db}.` when a database is configured (truthy) and empty otherwise. -/
def procedureText {α : Type} (database name : List Char) (params : List α) : List Char :=
  let schemaPrefix := if database.isEmpty then [] else "{db}.".data
  "CALL ".data ++ schemaPrefix ++ '"' :: name ++ "\"(".data ++ SapDb.placeholders params ++ [')']

/-- The method `procedure` (lines 152-162): `NotConnected` guard, build the
call text, delegate to `query` with the same parameter list. -/
def procedure {α : Type} (db : Database) (name : List Char) (params : List α) :
    Except DbError (Work α) :=
  match db.pool with
  | none => .error .notConnected
  | some _ => query db (procedureText db.database name params) params

/-- The method `disconnect` (lines 168-180): when a pool exists, drain and
clear it and reset `this.pool = undefined`; with no pool it is a no-op.
`nativeOk` is the oracle for the native drain/clear; on its failure the
wrapped disconnection error is thrown and (the clear of the field being
unreached) the pool field keeps its value. -/
def disconnect (db : Database) (nativeOk : Bool) :
    Database × List Effect × Except DbError Unit :=
  match db.pool with
  | none => (db, [], .ok ())
  | some _ =>
    if nativeOk then ({ db with pool := none }, [.drainPool, .clearPool], .ok ())
    else (db, [.drainPool, .clearPool], .error .disconnectionError)

end Single

/-! ### Multi-backend variant (`Database.ts` lines 200-491) -/

namespace Multi

/-- Interface `DatabaseConnectionParams` of the multi-backend `types.ts`
(`database` required, `databaseType` a string). -/
structure ConnectionParams where
  server : List Char
  database : List Char
  username : List Char
  password : List Char
  databaseType : List Char
  timeout : Option Nat
  poolSettings : Option PoolSettings
  deriving DecidableEq

/-- Fields of the multi-backend `Database` class.  The definite-assignment
fields (`databaseType!`, `isHana!`, ...) are `undefined` before the first
`connect`; `undefined` is modelled by the default value each field is
tested against (`false` for the boolean flags, `none` for the handles,
`[]` for strings — the string fields are only read after some `connect`
assigned them). -/
structure Database where
  databaseType : Option SapDb.DatabaseType := none
  isHana : Bool := false
  isPostgres : Bool := false
  database : List Char := []
  username : List Char := []
  password : List Char := []
  server : List Char := []
  timeout : Nat := 0
  poolSettings : Option PoolSettings := none
  pool : Option SapDb.HanaPool := none
  mssql : Option SapDb.MssqlConfig := none
  mssqlConnect : Bool := false
  pgPool : Option SapDb.PgConfig := none
  deriving DecidableEq

/-- A freshly constructed instance (`new Database()`), before any
`connect`. -/
def initial : Database := {}

/-- The backend-kind validation of `connect` (lines 223-230):
`params.databaseType.toUpperCase()` tested for membership in the enum
values. -/
def parseDatabaseType (s : List Char) : Option SapDb.DatabaseType :=
  if s = "HANA".data then some .HANA
  else if s = "MSSQL".data then some .MSSQL
  else if s = "POSTGRES".data then some .POSTGRES
  else none

/-- `setConnDbHana` of the multi-backend variant (lines 259-294): builds
the connection parameters (`currentSchema: this.database`,
unconditionally) and the pool, assigns `this.pool` — and performs no
connectivity probe: no acquire happens and nothing can fail. -/
def setConnDbHana (db : Database) : Database × List Effect :=
  let pool : SapDb.HanaPool :=
    { connParams :=
        { serverNode := db.server
          UID := db.username
          PWD := db.password
          currentSchema := some db.database
          communicationTimeout := db.timeout }
      max := effectiveMax db.poolSettings
      min := effectiveMin db.poolSettings }
  ({ db with pool := some pool }, [.createPool])

/-- `setConnDbSql` (lines 300-336): split host/port, assign `this.mssql`
to the new connection pool; the construction callback may fail
(`mssqlOk = false`), in which case the promise rejects AFTER the field was
assigned.  On success, `this.mssqlConnect` stores the in-flight connect. -/
def setConnDbSql (db : Database) (mssqlOk : Bool) :
    Database × List Effect × Except DbError Unit :=
  let hp := splitHostPort db.server
  let cfg : SapDb.MssqlConfig :=
    { server := hp.1
      port := hp.2
      user := db.username
      password := db.password
      database := db.database
      connectionTimeout := db.timeout
      requestTimeout := db.timeout }
  let db1 := { db with mssql := some cfg }
  if mssqlOk then ({ db1 with mssqlConnect := true }, [.createMssqlPool], .ok ())
  else (db1, [.createMssqlPool], .error .connectionError)

/-- `setConnDbPostgres` (lines 342-362): split host/port and assign
`this.pgPool`; the constructor does not connect, so nothing can fail. -/
def setConnDbPostgres (db : Database) : Database × List Effect :=
  let hp := splitHostPort db.server
  let cfg : SapDb.PgConfig :=
    { host := hp.1
      port := hp.2
      user := db.username
      password := db.password
      database := db.database
      idleTimeoutMillis := db.timeout
      connectionTimeoutMillis := db.timeout
      poolSettings := db.poolSettings }
  ({ db with pgPool := some cfg }, [.createPgPool])

/-- The method `connect(params)` (lines 222-253): uppercase and validate
the backend kind, store ALL parameters unvalidated (no blank-field check
exists in this variant), then dispatch to the backend-specific setup;
adapter failures are wrapped into the connection error. -/
def connect (db : Database) (params : ConnectionParams) (mssqlOk : Bool) :
    Database × List Effect × Except DbError Unit :=
  let typeStr := toUpperStr params.databaseType
  match parseDatabaseType typeStr with
  | none => (db, [], .error (.invalidType typeStr))
  | some dt =>
    let db1 : Database :=
      { db with
        databaseType := some dt
        isHana := dt = .HANA
        isPostgres := dt = .POSTGRES
        database := params.database
        username := params.username
        password := params.password
        server := params.server
        timeout := params.timeout.getD 600000
        poolSettings := params.poolSettings }
    match dt with
    | .HANA =>
      let r := setConnDbHana db1
      (r.1, r.2, .ok ())
    | .POSTGRES =>
      let r := setConnDbPostgres db1
      (r.1, r.2, .ok ())
    | .MSSQL => setConnDbSql db1 mssqlOk

/-- The method `executeQuery` (lines 371-440): `NotConnected` guard
(`!this.isHana && !this.isPostgres && !this.mssql`), unconditional `{db}`
substitution (line 376, `query.replace(/{db}/g, this.database)` with no
blank test), then the backend branch: HANA and PostgreSQL dispatch the
substituted text with positional parameters; MSSQL rewrites `?`
placeholders into `@mssqlboundparm<i>` names when parameters were
supplied and binds each `mssqlboundparm<i>` to `parameters[i]`, or
dispatches the raw text when no parameters were supplied. -/
def executeQuery {α : Type} (db : Database) (queryText : List Char) (params : List α) :
    Except DbError (Work α) :=
  if !db.isHana && !db.isPostgres && db.mssql.isNone then .error .notConnected
  else
    let q := replaceDb queryText db.database
    if db.isHana then
      match db.pool with
      | none => .error .hanaPoolNotInit
      | some _ => .ok (.hana q params)
    else if db.isPostgres then
      match db.pgPool with
      | none => .error .pgPoolNotInit
      | some _ => .ok (.pg q params)
    else
      match db.mssql, db.mssqlConnect with
      | none, _ => .error .mssqlNotInit
      | some _, false => .error .mssqlNotInit
      | some _, true =>
        if params.length > 0 then
          .ok (.mssqlBound (mssqlRewriteLoop q 0) (mssqlBindings params))
        else .ok (.mssqlRaw q)

/-- The call text built by `executeProcedure` (lines 450-459), chosen by
the `isHana`/`isPostgres` flags: HANA `CALL {db}."name"(?,...)` (with the
`{db}.` prefix unconditionally), PostgreSQL `SELECT * FROM name(?,...)`,
MSSQL (the `else` branch) `EXEC "name" ?,...`. -/
def procedureText {α : Type} (isHana isPostgres : Bool) (name : List Char)
    (params : List α) : List Char :=
  if isHana then
    "CALL {db}.".data ++ '"' :: name ++ "\"(".data ++ SapDb.placeholders params ++ [')']
  else if isPostgres then
    "SELECT * FROM ".data ++ name ++ '(' :: SapDb.placeholders params ++ [')']
  else
    "EXEC ".data ++ '"' :: name ++ '"' :: ' ' :: SapDb.placeholders params

/-- The method `executeProcedure` (lines 449-462): build the call text and
delegate to `executeQuery` with the same parameter list (no guard of its
own). -/
def executeProcedure {α : Type} (db : Database) (name : List Char) (params : List α) :
    Except DbError (Work α) :=
  executeQuery db (procedureText db.isHana db.isPostgres name params) params

/-- The method `disconnect` (lines 468-491): branch on the flags and tear
the native handle down when present — and clear NOTHING: no field is
reset, so the instance keeps its flags and handles.  `nativeOk` is the
oracle for the native drain/clear/end/close calls; on failure the wrapped
disconnection error is thrown. -/
def disconnectEffects (db : Database) : List Effect :=
  if db.isHana then
    match db.pool with
    | some _ => [.drainPool, .clearPool]
    | none => []
  else if db.isPostgres then
    match db.pgPool with
    | some _ => [.endPgPool]
    | none => []
  else
    if db.mssqlConnect then [.awaitMssqlConnect, .closeMssql] else []

def disconnect (db : Database) (nativeOk : Bool) :
    Database × List Effect × Except DbError Unit :=
  if (disconnectEffects db).isEmpty then (db, [], .ok ())
  else if nativeOk then (db, disconnectEffects db, .ok ())
  else (db, disconnectEffects db, .error .disconnectionError)

end Multi

/-! ### Pool runtime model for the query execution paths

`PoolSt` abstracts the native pool by its idle-connection count.  The two
runs below embed the acquire/execute/release choreography of the HANA
branch (lines 128-142 and 383-397: `acquire().then(client => exec(...,
cb))` where the callback releases the client before settling, with
`.catch(reject)` for a failed acquire) and of the PostgreSQL branch
(lines 405-411: `connect()` then `query` inside `try`, `release()` in
`finally`). -/

structure PoolSt where
  idle : Nat
  deriving DecidableEq

inductive RunEffect
  | acquire
  | release
  | pgConnect
  | pgRelease
  deriving DecidableEq

/-- One HANA query execution: acquire a pooled connection (taking an idle
one), run `client.exec`; the callback releases the client back to the pool
and only then resolves or rejects with the native result.  A failed
acquire rejects without touching any connection. -/
def hanaQueryRun {α : Type} (p : PoolSt) (acquireOk : Bool)
    (execRes : Except DbError α) : PoolSt × List RunEffect × Except DbError α :=
  if acquireOk then
    let afterAcquire : PoolSt := { idle := p.idle - 1 }
    let afterRelease : PoolSt := { idle := afterAcquire.idle + 1 }
    (afterRelease, [.acquire, .release], execRes)
  else (p, [], .error .connectionError)

/-- One PostgreSQL query execution: `pgPool.connect()` checks a client
out, `client.query` runs inside `try`, and `client.release()` runs in the
`finally` block on both the success and the failure path. -/
def pgQueryRun {α : Type} (p : PoolSt) (connectOk : Bool)
    (queryRes : Except DbError α) : PoolSt × List RunEffect × Except DbError α :=
  if connectOk then
    let afterAcquire : PoolSt := { idle := p.idle - 1 }
    let afterRelease : PoolSt := { idle := afterAcquire.idle + 1 }
    (afterRelease, [.pgConnect, .pgRelease], queryRes)
  else (p, [], .error .connectionError)

/-! ### Helper lemmas about the embedded operations -/

theorem placeholders_nil {α : Type} : placeholders ([] : List α) = [] := rfl

theorem placeholders_singleton {α : Type} (x : α) : placeholders [x] = ['?'] := rfl

theorem placeholders_cons_cons {α : Type} (x y : α) (t : List α) :
    placeholders (x :: y :: t) = '?' :: ',' :: placeholders (y :: t) := by
  simp [placeholders, List.intercalate, List.intersperse]

theorem placeholders_countQ {α : Type} (params : List α) :
    countQ (placeholders params) = params.length := by
  induction params with
  | nil => rfl
  | cons x t ih =>
    cases t with
    | nil => rfl
    | cons y t' =>
      rw [placeholders_cons_cons, countQ_cons, countQ_cons, ih]
      simp
      omega

/-- The multi-backend `connect` can fail only with the invalid-kind error
or the wrapped native connection error: no missing-field validation error
exists on any of its paths. -/
theorem multi_connect_no_invalidParam (m : Multi.Database) (q : Multi.ConnectionParams)
    (mssqlOk : Bool) (f : List Char) :
    (Multi.connect m q mssqlOk).2.2 ≠ .error (.invalidParam f) := by
  unfold Multi.connect
  cases hparse : Multi.parseDatabaseType (toUpperStr q.databaseType) with
  | none => simp only [hparse]; simp
  | some dt =>
    simp only [hparse]
    cases dt with
    | HANA => simp [Multi.setConnDbHana]
    | MSSQL =>
      simp only [Multi.setConnDbSql]
      split <;> simp
    | POSTGRES => simp [Multi.setConnDbPostgres]

/-- In the multi-backend variant, `disconnect` clears no field: whatever
the branch and the native outcome, the state is returned unchanged. -/
theorem multi_disconnect_state (db : Multi.Database) (nativeOk : Bool) :
    (Multi.disconnect db nativeOk).1 = db := by
  unfold Multi.disconnect
  split
  · rfl
  · split <;> rfl

/-- Both failure and success of the native teardown attempt the same
native operations. -/
theorem multi_disconnect_effects (db : Multi.Database) (nativeOk : Bool)
    (h : (Multi.disconnectEffects db).isEmpty = false) :
    (Multi.disconnect db nativeOk).2.1 = Multi.disconnectEffects db := by
  unfold Multi.disconnect
  rw [h]
  cases nativeOk <;> simp

/-! ### Concrete fixtures (reachable states used by the closed theorems) -/

def validSingleParams : Single.ConnectionParams :=
  { server := "hana-host:30015".data
    database := some "S1".data
    username := "user1".data
    password := "pw1".data
    timeout := none
    poolSettings := none }

/-- The state the single-backend constructor builds from
`validSingleParams`. -/
def singleDb0 : Single.Database :=
  { database := "S1".data
    username := "user1".data
    password := "pw1".data
    server := "hana-host:30015".data
    timeout := 600000
    poolSettings := none
    pool := none }

theorem singleDb0_reachable : Single.mkDatabase validSingleParams = .ok singleDb0 := by
  decide

def emptyDbSingleParams : Single.ConnectionParams :=
  { server := "hana-host".data
    database := none
    username := "user1".data
    password := "pw1".data
    timeout := none
    poolSettings := none }

/-- The state the single-backend constructor builds from
`emptyDbSingleParams` (no schema configured). -/
def singleEmptyDb0 : Single.Database :=
  { database := []
    username := "user1".data
    password := "pw1".data
    server := "hana-host".data
    timeout := 600000
    poolSettings := none
    pool := none }

theorem singleEmptyDb0_reachable :
    Single.mkDatabase emptyDbSingleParams = .ok singleEmptyDb0 := by
  decide

def singleConnected : Single.Database := (Single.connect singleDb0 true).1

def singleEmptyDbConnected : Single.Database := (Single.connect singleEmptyDb0 true).1

def hanaParamsS1 : Multi.ConnectionParams :=
  { server := "hana-host:30015".data
    database := "S1".data
    username := "user1".data
    password := "pw1".data
    databaseType := "hana".data
    timeout := none
    poolSettings := none }

def blankHanaParams : Multi.ConnectionParams :=
  { server := "  ".data
    database := "S1".data
    username := " ".data
    password := "pw1".data
    databaseType := "HANA".data
    timeout := none
    poolSettings := none }

def emptyDbHanaParams : Multi.ConnectionParams :=
  { server := "hana-host:30015".data
    database := []
    username := "user1".data
    password := "pw1".data
    databaseType := "HANA".data
    timeout := none
    poolSettings := none }

def mssqlParams : Multi.ConnectionParams :=
  { server := "sql-host:1433".data
    database := "D1".data
    username := "user1".data
    password := "pw1".data
    databaseType := "MSSQL".data
    timeout := some 30000
    poolSettings := none }

def pgParams : Multi.ConnectionParams :=
  { server := "pg-host:5432".data
    database := "PD".data
    username := "user1".data
    password := "pw1".data
    databaseType := "postgres".data
    timeout := some 30000
    poolSettings := none }

def multiHana : Multi.Database := (Multi.connect Multi.initial hanaParamsS1 true).1

def multiHanaEmptyDb : Multi.Database :=
  (Multi.connect Multi.initial emptyDbHanaParams true).1

def multiMssql : Multi.Database := (Multi.connect Multi.initial mssqlParams true).1

def multiPg : Multi.Database := (Multi.connect Multi.initial pgParams true).1

def multiHanaDisc : Multi.Database := (Multi.disconnect multiHana true).1

def multiPgDisc : Multi.Database := (Multi.disconnect multiPg true).1

/-! ### Claim C1 -/

/-- C1 (counterexample): the claim says `connect` with a blank server,
username or password fails with the invalid-configuration error before any
adapter construction, for every backend kind.  In the multi-backend
variant (the only `connect` that takes parameters), connecting with the
HANA kind, a whitespace-only server and a whitespace-only username
succeeds, and the adapter pool IS constructed — no validation happens. -/
theorem c1_blank_credentials_accepted :
    isBlank SapDb.blankHanaParams.server = true ∧
    isBlank SapDb.blankHanaParams.username = true ∧
    (Multi.connect Multi.initial SapDb.blankHanaParams true).2.2 = .ok () ∧
    ((Multi.connect Multi.initial SapDb.blankHanaParams true).1).pool.isSome = true := by
  decide

/-- C1 (amended): blank-field validation exists only in the single-backend
variant, where it is performed by the constructor: a blank (empty or
whitespace-only) server, username or password is rejected there with the
error naming the missing field, before any pool state exists.  The
multi-backend `connect` validates only the backend kind and never raises
a missing-field error, whatever the parameters. -/
theorem c1_validation_only_in_single_constructor
    (p pu pw pok : Single.ConnectionParams) (q : Multi.ConnectionParams)
    (m : Multi.Database) (mssqlOk : Bool) (f : List Char)
    (hs : isBlank p.server = true)
    (hu1 : isBlank pu.server = false) (hu2 : isBlank pu.username = true)
    (hw1 : isBlank pw.server = false) (hw2 : isBlank pw.username = false)
    (hw3 : isBlank pw.password = true)
    (hok1 : isBlank pok.server = false) (hok2 : isBlank pok.username = false)
    (hok3 : isBlank pok.password = false) :
    Single.mkDatabase p = .error (.invalidParam "server".data) ∧
    Single.mkDatabase pu = .error (.invalidParam "username".data) ∧
    Single.mkDatabase pw = .error (.invalidParam "password".data) ∧
    (∃ d, Single.mkDatabase pok = .ok d ∧ d.pool = none) ∧
    (Multi.connect m q mssqlOk).2.2 ≠ .error (.invalidParam f) := by
  refine ⟨?_, ?_, ?_, ?_, multi_connect_no_invalidParam m q mssqlOk f⟩
  · simp [Single.mkDatabase, hs]
  · simp [Single.mkDatabase, hu1, hu2]
  · simp [Single.mkDatabase, hw1, hw2, hw3]
  · exact ⟨{ database := pok.database.getD []
             username := pok.username
             password := pok.password
             server := pok.server
             timeout := pok.timeout.getD 600000
             poolSettings := pok.poolSettings
             pool := none },
      by simp [Single.mkDatabase, hok1, hok2, hok3], rfl⟩

/-- C1 (witness): the amended theorem applied at concrete parameters. -/
theorem c1_validation_witness :
    Single.mkDatabase { SapDb.validSingleParams with server := "  ".data }
        = .error (.invalidParam "server".data) ∧
    Single.mkDatabase { SapDb.validSingleParams with username := [] }
        = .error (.invalidParam "username".data) ∧
    Single.mkDatabase { SapDb.validSingleParams with password := " ".data }
        = .error (.invalidParam "password".data) ∧
    (∃ d, Single.mkDatabase SapDb.validSingleParams = .ok d ∧ d.pool = none) ∧
    (Multi.connect Multi.initial SapDb.hanaParamsS1 true).2.2
        ≠ .error (.invalidParam "server".data) := by
  exact c1_validation_only_in_single_constructor
    { SapDb.validSingleParams with server := "  ".data }
    { SapDb.validSingleParams with username := [] }
    { SapDb.validSingleParams with password := " ".data }
    SapDb.validSingleParams SapDb.hanaParamsS1 Multi.initial true "server".data
    (by decide) (by decide) (by decide) (by decide) (by decide) (by decide)
    (by decide) (by decide) (by decide)

/-! ### Claim C2 -/

/-- C2 (counterexample): the claim says the dispatched text is identical
to the caller text when no database is configured (absent or blank).  In
the multi-backend variant the substitution is unconditional: with the
stored database equal to the empty string, every `{db}` token is replaced
by the empty string, so the dispatched text differs from the caller
text. -/
theorem c2_empty_database_still_substitutes :
    SapDb.multiHanaEmptyDb.database = [] ∧
    Multi.executeQuery SapDb.multiHanaEmptyDb "SELECT * FROM {db}.T".data ([] : List Nat)
      = .ok (.hana "SELECT * FROM .T".data []) ∧
    ("SELECT * FROM .T".data : List Char) ≠ "SELECT * FROM {db}.T".data := by
  decide

/-- C2 (amended): both variants replace every literal `{db}` occurrence
with the stored database name (characterised by the occurrence equations
on `replaceDb`); the single-backend variant skips the substitution exactly
when the stored name is the empty string (a whitespace-only name still
substitutes), while the multi-backend variant never skips it, so an empty
name deletes the `{db}` tokens rather than leaving the text unchanged. -/
theorem c2_db_substitution
    {α : Type} (database q a b : List Char) (m : Multi.Database) (params : List α)
    (hdb : database ≠ []) (hfree : hasDbTok a = false)
    (hst : m.isHana = true) (hpool : m.pool.isSome = true) :
    Single.substDb [] q = q ∧
    Single.substDb database q = replaceDb q database ∧
    Multi.executeQuery m q params = .ok (.hana (replaceDb q m.database) params) ∧
    replaceDb (a ++ '{' :: 'd' :: 'b' :: '}' :: b) database
      = a ++ database ++ replaceDb b database ∧
    replaceDb a database = a := by
  obtain ⟨pl, hpl⟩ := Option.isSome_iff_exists.mp hpool
  refine ⟨?_, ?_, ?_, ?_, ?_⟩
  · simp [Single.substDb]
  · simp [Single.substDb, hdb]
  · simp [Multi.executeQuery, hst, hpl]
  · exact replaceDb_append_tok b database hfree
  · exact replaceDb_no_tok database hfree

/-- C2 (witness): the amended theorem applied at the spec example
(query `SELECT * FROM {db}.T`, database `SCHEMA1`), together with the
concrete value of that substitution. -/
theorem c2_db_substitution_witness :
    (Single.substDb [] "SELECT * FROM {db}.T".data = "SELECT * FROM {db}.T".data ∧
      Single.substDb "SCHEMA1".data "SELECT * FROM {db}.T".data
        = replaceDb "SELECT * FROM {db}.T".data "SCHEMA1".data ∧
      Multi.executeQuery SapDb.multiHana "SELECT * FROM {db}.T".data ([1] : List Nat)
        = .ok (.hana (replaceDb "SELECT * FROM {db}.T".data SapDb.multiHana.database) [1]) ∧
      replaceDb ("SELECT * FROM ".data ++ '{' :: 'd' :: 'b' :: '}' :: ".T".data) "SCHEMA1".data
        = "SELECT * FROM ".data ++ "SCHEMA1".data ++ replaceDb ".T".data "SCHEMA1".data ∧
      replaceDb "SELECT * FROM ".data "SCHEMA1".data = "SELECT * FROM ".data) ∧
    replaceDb "SELECT * FROM {db}.T".data "SCHEMA1".data = "SELECT * FROM SCHEMA1.T".data := by
  refine ⟨?_, by decide⟩
  exact c2_db_substitution "SCHEMA1".data "SELECT * FROM {db}.T".data
    "SELECT * FROM ".data ".T".data SapDb.multiHana [1]
    (by decide) (by decide) (by decide) (by decide)

/-! ### Claim C3 -/

/-- C3 (counterexample): the claim says query/procedure fail with the
NotConnected error whenever no connect call has succeeded, including when
every connect call so far failed.  In the single-backend variant a failed
connect (probe failure) has already assigned the pool field, so the
subsequent `query` passes the NotConnected guard and dispatches work. -/
theorem c3_failed_connect_defeats_guard :
    (Single.connect SapDb.singleDb0 false).2.2 = .error DbError.connectionError ∧
    Single.query (Single.connect SapDb.singleDb0 false).1 "SELECT 1 FROM DUMMY".data
        ([] : List Nat)
      ≠ .error DbError.notConnected := by
  decide

/-- C3 (amended): query/procedure fail with the NotConnected error exactly
when the adapter state is still absent — the state of an instance on which
connect was never attempted (or never got as far as adapter assignment).
A connect attempt that fails after assigning its adapter state (the
single-variant probe failure, or the multi-variant MSSQL callback
failure) leaves the guard disarmed: the single-backend pool field is
assigned before the probe runs, so the connect-failure state no longer
triggers NotConnected. -/
theorem c3_not_connected_guard
    {α : Type} (s : Single.Database) (m : Multi.Database) (q name : List Char)
    (params : List α) (s2 : Single.Database) (probeOk : Bool)
    (hs : s.pool = none)
    (hm1 : m.isHana = false) (hm2 : m.isPostgres = false) (hm3 : m.mssql = none) :
    Single.query s q params = .error .notConnected ∧
    Single.procedure s name params = .error .notConnected ∧
    Multi.executeQuery m q params = .error .notConnected ∧
    Multi.executeProcedure m name params = .error .notConnected ∧
    ((Single.connect s2 probeOk).1).pool.isSome = true := by
  refine ⟨?_, ?_, ?_, ?_, ?_⟩
  · simp [Single.query, hs]
  · simp [Single.procedure, hs]
  · simp [Multi.executeQuery, hm1, hm2, hm3]
  · simp [Multi.executeProcedure, Multi.executeQuery, hm1, hm2, hm3]
  · cases probeOk <;> simp [Single.connect]

/-- C3 (witness): the amended theorem applied at the freshly constructed
single-backend state and the fresh multi-backend instance. -/
theorem c3_not_connected_guard_witness :
    Single.query SapDb.singleDb0 "SELECT 1 FROM DUMMY".data ([] : List Nat)
        = .error .notConnected ∧
    Single.procedure SapDb.singleDb0 "SP1".data ([] : List Nat) = .error .notConnected ∧
    Multi.executeQuery Multi.initial "SELECT 1 FROM DUMMY".data ([] : List Nat)
        = .error .notConnected ∧
    Multi.executeProcedure Multi.initial "SP1".data ([] : List Nat)
        = .error .notConnected ∧
    ((Single.connect SapDb.singleDb0 false).1).pool.isSome = true :=
  c3_not_connected_guard SapDb.singleDb0 Multi.initial "SELECT 1 FROM DUMMY".data
    "SP1".data ([] : List Nat) SapDb.singleDb0 false
    (by decide) (by decide) (by decide) (by decide)

/-! ### Claim C4 -/

/-- C4 (counterexample): the claim says a successful disconnect returns
the instance to its initial unconnected state so a subsequent query fails
with NotConnected.  In the multi-backend variant `disconnect` clears
nothing: after disconnecting a connected HANA instance, `executeQuery`
does not fail with the NotConnected error (the flags and the pool handle
are still set, so it dispatches against the drained pool). -/
theorem c4_multi_disconnect_keeps_state :
    (Multi.disconnect SapDb.multiHana true).2.2 = .ok () ∧
    SapDb.multiHanaDisc = SapDb.multiHana ∧
    Multi.executeQuery SapDb.multiHanaDisc "SELECT 1 FROM DUMMY".data ([] : List Nat)
      ≠ .error DbError.notConnected := by
  decide

/-- C4 (amended): the disconnect round-trip holds in the single-backend
variant only: there a successful disconnect clears the pool field, a
subsequent query fails with NotConnected, and a subsequent connect
succeeds and restores query dispatch.  In the multi-backend variant
`disconnect` leaves every field unchanged, so the instance never returns
to its initial unconnected state. -/
theorem c4_disconnect_round_trip
    {α : Type} (s : Single.Database) (q : List Char) (params : List α)
    (m : Multi.Database) (nativeOk : Bool)
    (hpool : s.pool.isSome = true) :
    (Single.disconnect s true).2.2 = .ok () ∧
    ((Single.disconnect s true).1).pool = none ∧
    Single.query (Single.disconnect s true).1 q params = .error .notConnected ∧
    (Single.connect (Single.disconnect s true).1 true).2.2 = .ok () ∧
    Single.query (Single.connect (Single.disconnect s true).1 true).1 q params
      ≠ .error .notConnected ∧
    (Multi.disconnect m nativeOk).1 = m := by
  obtain ⟨pl, hpl⟩ := Option.isSome_iff_exists.mp hpool
  refine ⟨?_, ?_, ?_, ?_, ?_, multi_disconnect_state m nativeOk⟩
  · simp [Single.disconnect, hpl]
  · simp [Single.disconnect, hpl]
  · simp [Single.disconnect, hpl, Single.query]
  · simp [Single.disconnect, hpl, Single.connect]
  · simp [Single.disconnect, hpl, Single.connect, Single.query]

/-- C4 (witness): the amended theorem applied at the connected
single-backend fixture and the connected multi-backend HANA fixture. -/
theorem c4_disconnect_round_trip_witness :
    (Single.disconnect SapDb.singleConnected true).2.2 = .ok () ∧
    ((Single.disconnect SapDb.singleConnected true).1).pool = none ∧
    Single.query (Single.disconnect SapDb.singleConnected true).1 "SELECT 1".data
        ([] : List Nat) = .error .notConnected ∧
    (Single.connect (Single.disconnect SapDb.singleConnected true).1 true).2.2 = .ok () ∧
    Single.query (Single.connect (Single.disconnect SapDb.singleConnected true).1 true).1
        "SELECT 1".data ([] : List Nat) ≠ .error .notConnected ∧
    (Multi.disconnect SapDb.multiHana true).1 = SapDb.multiHana :=
  c4_disconnect_round_trip SapDb.singleConnected "SELECT 1".data ([] : List Nat)
    SapDb.multiHana true (by decide)

/-! ### Claim C5 -/

/-- C5: for the MSSQL backend with at least one parameter, the rewrite
loop turns the text into the left-to-right single pass that replaces the
k-th `?` occurrence by the uniquely indexed name carrying k, leaves no `?`
character behind, and the request binds the k-th generated name to the
k-th supplied value; with zero parameters the text is issued unchanged
with no bindings.  The generated names are pairwise distinct because the
rendered index is injective. -/
theorem c5_mssql_placeholder_rewrite
    {α : Type} (s : List Char) (params : List α) (k i j : Nat) (v : α)
    (m : Multi.Database)
    (hne : params ≠ []) (hget : params.get? k = some v)
    (hinj : paramName i = paramName j)
    (hm1 : m.isHana = false) (hm2 : m.isPostgres = false)
    (hm3 : m.mssql.isSome = true) (hm4 : m.mssqlConnect = true) :
    countQ (mssqlPrepare s params).1 = 0 ∧
    (mssqlPrepare s params).1 = rewriteAux s 0 ∧
    i = j ∧
    (mssqlPrepare s params).2.get? k = some (inputName k, v) ∧
    mssqlPrepare s ([] : List α) = (s, []) ∧
    Multi.executeQuery m s params
      = .ok (.mssqlBound (mssqlRewriteLoop (replaceDb s m.database) 0)
          (mssqlBindings params)) := by
  have hlen : params.length > 0 := List.length_pos.mpr hne
  obtain ⟨cfg, hcfg⟩ := Option.isSome_iff_exists.mp hm3
  have hpre : mssqlPrepare s params = (mssqlRewriteLoop s 0, mssqlBindings params) := by
    simp [mssqlPrepare, hlen]
  refine ⟨?_, ?_, paramName_injective hinj, ?_, ?_, ?_⟩
  · rw [hpre]; exact mssqlRewriteLoop_countQ s 0
  · rw [hpre]; exact mssqlRewriteLoop_eq_rewriteAux s 0
  · rw [hpre]
    show (mssqlBindings params).get? k = some (inputName k, v)
    rw [mssqlBindings_get?, hget]
    rfl
  · simp [mssqlPrepare]
  · simp [Multi.executeQuery, hm1, hm2, hcfg, hm4, hlen]

/-- C5 (witness): the theorem applied at the spec example (two `?`
markers, two parameters) against the connected MSSQL fixture, plus the
concrete value of the rewritten text. -/
theorem c5_mssql_placeholder_rewrite_witness :
    (countQ (mssqlPrepare "SELECT * FROM T WHERE a=? AND b=?".data
        ([10, 20] : List Nat)).1 = 0 ∧
      (mssqlPrepare "SELECT * FROM T WHERE a=? AND b=?".data ([10, 20] : List Nat)).1
        = rewriteAux "SELECT * FROM T WHERE a=? AND b=?".data 0 ∧
      (0 : Nat) = 0 ∧
      (mssqlPrepare "SELECT * FROM T WHERE a=? AND b=?".data
          ([10, 20] : List Nat)).2.get? 1 = some (inputName 1, 20) ∧
      mssqlPrepare "SELECT * FROM T WHERE a=? AND b=?".data ([] : List Nat)
        = ("SELECT * FROM T WHERE a=? AND b=?".data, []) ∧
      Multi.executeQuery SapDb.multiMssql "SELECT * FROM T WHERE a=? AND b=?".data
          ([10, 20] : List Nat)
        = .ok (.mssqlBound
            (mssqlRewriteLoop
              (replaceDb "SELECT * FROM T WHERE a=? AND b=?".data
                SapDb.multiMssql.database) 0)
            (mssqlBindings [10, 20]))) ∧
    mssqlRewriteLoop "SELECT * FROM T WHERE a=? AND b=?".data 0
      = "SELECT * FROM T WHERE a=@mssqlboundparm0 AND b=@mssqlboundparm1".data := by
  refine ⟨c5_mssql_placeholder_rewrite "SELECT * FROM T WHERE a=? AND b=?".data
    ([10, 20] : List Nat) 1 0 0 20 SapDb.multiMssql (by decide) (by decide) rfl
    (by decide) (by decide) (by decide) (by decide), by decide⟩

/-! ### Claim C6 -/

/-- C6 (counterexample): the claim says the HANA `connect` performs an
acquire-then-release probe right after pool construction and fails when
the probe fails.  The multi-backend HANA `connect` performs no acquire at
all and succeeds even when the native layer would fail every connection
attempt (oracle `false`). -/
theorem c6_multi_hana_has_no_probe :
    (Multi.connect Multi.initial SapDb.hanaParamsS1 false).2.2 = .ok () ∧
    (Multi.connect Multi.initial SapDb.hanaParamsS1 false).2.1 = [Effect.createPool] ∧
    Effect.acquire ∉ (Multi.connect Multi.initial SapDb.hanaParamsS1 false).2.1 := by
  decide

/-- C6 (amended): the connectivity probe exists only in the single-backend
variant: its `connect` acquires and immediately releases one client right
after pool construction, and a probe failure fails the whole call.  The
multi-backend HANA `connect` only constructs the pool: no acquire is
performed and the call succeeds regardless of native health. -/
theorem c6_probe_only_single_variant
    (s : Single.Database) (m : Multi.Database) (p : Multi.ConnectionParams)
    (mssqlOk : Bool)
    (hp : Multi.parseDatabaseType (toUpperStr p.databaseType) = some .HANA) :
    (Single.connect s true).2.1 = [Effect.createPool, Effect.acquire, Effect.release] ∧
    (Single.connect s true).2.2 = .ok () ∧
    (Single.connect s false).2.1 = [Effect.createPool, Effect.acquire] ∧
    (Single.connect s false).2.2 = .error .connectionError ∧
    (Multi.connect m p mssqlOk).2.2 = .ok () ∧
    (Multi.connect m p mssqlOk).2.1 = [Effect.createPool] := by
  refine ⟨by simp [Single.connect], by simp [Single.connect],
    by simp [Single.connect], by simp [Single.connect], ?_, ?_⟩
  · unfold Multi.connect
    simp [hp, Multi.setConnDbHana]
  · unfold Multi.connect
    simp [hp, Multi.setConnDbHana]

/-- C6 (witness): the amended theorem applied at the constructed
single-backend state and the HANA parameters, with the native oracle
failing. -/
theorem c6_probe_only_single_variant_witness :
    (Single.connect SapDb.singleDb0 true).2.1
        = [Effect.createPool, Effect.acquire, Effect.release] ∧
    (Single.connect SapDb.singleDb0 true).2.2 = .ok () ∧
    (Single.connect SapDb.singleDb0 false).2.1 = [Effect.createPool, Effect.acquire] ∧
    (Single.connect SapDb.singleDb0 false).2.2 = .error .connectionError ∧
    (Multi.connect Multi.initial SapDb.hanaParamsS1 false).2.2 = .ok () ∧
    (Multi.connect Multi.initial SapDb.hanaParamsS1 false).2.1 = [Effect.createPool] :=
  c6_probe_only_single_variant SapDb.singleDb0 Multi.initial SapDb.hanaParamsS1 false
    (by decide)

/-! ### Claim C7 -/

/-- C7: in both pooled execution paths (HANA acquire/exec-callback and
PostgreSQL connect/try-finally), a connection acquired for a query is
released exactly once on every exit path — the effect trace holds exactly
one release, after the acquire — the idle count returns to its pre-call
value, and the native result (success or failure alike) propagates to the
caller unchanged. -/
theorem c7_release_on_every_path
    {α : Type} (p : PoolSt) (r : Except DbError α) (hidle : 0 < p.idle) :
    (hanaQueryRun p true r).1.idle = p.idle ∧
    (hanaQueryRun p true r).2.1.count RunEffect.release = 1 ∧
    (hanaQueryRun p true r).2.1 = [RunEffect.acquire, RunEffect.release] ∧
    (hanaQueryRun p true r).2.2 = r ∧
    (pgQueryRun p true r).1.idle = p.idle ∧
    (pgQueryRun p true r).2.1.count RunEffect.pgRelease = 1 ∧
    (pgQueryRun p true r).2.1 = [RunEffect.pgConnect, RunEffect.pgRelease] ∧
    (pgQueryRun p true r).2.2 = r := by
  refine ⟨?_, ?_, rfl, rfl, ?_, ?_, rfl, rfl⟩
  · show p.idle - 1 + 1 = p.idle
    omega
  · show List.count RunEffect.release [RunEffect.acquire, RunEffect.release] = 1
    decide
  · show p.idle - 1 + 1 = p.idle
    omega
  · show List.count RunEffect.pgRelease [RunEffect.pgConnect, RunEffect.pgRelease] = 1
    decide

/-- C7 (witness): the theorem applied at a pool with three idle
connections and a failing native execution. -/
theorem c7_release_on_every_path_witness :
    (hanaQueryRun ⟨3⟩ true (.error .connectionError : Except DbError Nat)).1.idle = 3 ∧
    (hanaQueryRun ⟨3⟩ true (.error .connectionError : Except DbError Nat)).2.1.count
        RunEffect.release = 1 ∧
    (hanaQueryRun ⟨3⟩ true (.error .connectionError : Except DbError Nat)).2.1
        = [RunEffect.acquire, RunEffect.release] ∧
    (hanaQueryRun ⟨3⟩ true (.error .connectionError : Except DbError Nat)).2.2
        = .error .connectionError ∧
    (pgQueryRun ⟨3⟩ true (.error .connectionError : Except DbError Nat)).1.idle = 3 ∧
    (pgQueryRun ⟨3⟩ true (.error .connectionError : Except DbError Nat)).2.1.count
        RunEffect.pgRelease = 1 ∧
    (pgQueryRun ⟨3⟩ true (.error .connectionError : Except DbError Nat)).2.1
        = [RunEffect.pgConnect, RunEffect.pgRelease] ∧
    (pgQueryRun ⟨3⟩ true (.error .connectionError : Except DbError Nat)).2.2
        = .error .connectionError :=
  c7_release_on_every_path ⟨3⟩ (.error .connectionError : Except DbError Nat) (by decide)

/-! ### Claim C8 -/

/-- C8 (counterexample): the claim says procedure always builds the
columnar call text `CALL {db}."name"(...)`.  The single-backend variant
with no configured database builds `CALL "SP1"(?,?)` — no `{db}.` prefix
— as both `procedureText` and the full `procedure` dispatch show. -/
theorem c8_single_procedure_drops_db_prefix :
    Single.procedure SapDb.singleEmptyDbConnected "SP1".data ([1, 2] : List Nat)
      = .ok (.hana "CALL \"SP1\"(?,?)".data [1, 2]) ∧
    Single.procedureText ([] : List Char) "SP1".data ([1, 2] : List Nat)
      = "CALL \"SP1\"(?,?)".data ∧
    Single.procedureText ([] : List Char) "SP1".data ([1, 2] : List Nat)
      ≠ "CALL {db}.\"SP1\"(?,?)".data := by
  decide

/-- C8 (amended): the multi-backend variant builds exactly the three
claimed call texts, whose placeholder segment carries one literal `?` per
parameter, and delegates to `executeQuery` with the same parameter list;
the single-backend variant builds `CALL {db}."name"(...)` only when a
database is configured and drops the `{db}.` prefix otherwise. -/
theorem c8_procedure_text
    {α : Type} (name database : List Char) (params : List α) (m : Multi.Database)
    (hdb : database ≠ []) :
    countQ (SapDb.placeholders params) = params.length ∧
    Multi.procedureText true false name params
      = "CALL {db}.".data ++ '"' :: name ++ "\"(".data ++ SapDb.placeholders params
          ++ [')'] ∧
    Multi.procedureText false true name params
      = "SELECT * FROM ".data ++ name ++ '(' :: SapDb.placeholders params ++ [')'] ∧
    Multi.procedureText false false name params
      = "EXEC ".data ++ '"' :: name ++ '"' :: ' ' :: SapDb.placeholders params ∧
    Multi.executeProcedure m name params
      = Multi.executeQuery m (Multi.procedureText m.isHana m.isPostgres name params)
          params ∧
    Single.procedureText database name params
      = "CALL ".data ++ "{db}.".data ++ '"' :: name ++ "\"(".data
          ++ SapDb.placeholders params ++ [')'] ∧
    Single.procedureText [] name params
      = "CALL ".data ++ '"' :: name ++ "\"(".data ++ SapDb.placeholders params
          ++ [')'] := by
  have hne : database.isEmpty = false := by
    cases database with
    | nil => exact absurd rfl hdb
    | cons c t => rfl
  refine ⟨placeholders_countQ params, rfl, rfl, rfl, rfl, ?_, rfl⟩
  simp [Single.procedureText, hne]

/-- C8 (witness): the amended theorem applied at the spec example
(`SP1`, two parameters) with a configured database. -/
theorem c8_procedure_text_witness :
    (countQ (SapDb.placeholders ([1, 2] : List Nat)) = ([1, 2] : List Nat).length ∧
      Multi.procedureText true false "SP1".data ([1, 2] : List Nat)
        = "CALL {db}.".data ++ '"' :: "SP1".data ++ "\"(".data
            ++ SapDb.placeholders ([1, 2] : List Nat) ++ [')'] ∧
      Multi.procedureText false true "SP1".data ([1, 2] : List Nat)
        = "SELECT * FROM ".data ++ "SP1".data
            ++ '(' :: SapDb.placeholders ([1, 2] : List Nat) ++ [')'] ∧
      Multi.procedureText false false "SP1".data ([1, 2] : List Nat)
        = "EXEC ".data ++ '"' :: "SP1".data
            ++ '"' :: ' ' :: SapDb.placeholders ([1, 2] : List Nat) ∧
      Multi.executeProcedure SapDb.multiHana "SP1".data ([1, 2] : List Nat)
        = Multi.executeQuery SapDb.multiHana
            (Multi.procedureText SapDb.multiHana.isHana SapDb.multiHana.isPostgres
              "SP1".data ([1, 2] : List Nat)) ([1, 2] : List Nat) ∧
      Single.procedureText "S1".data "SP1".data ([1, 2] : List Nat)
        = "CALL ".data ++ "{db}.".data ++ '"' :: "SP1".data ++ "\"(".data
            ++ SapDb.placeholders ([1, 2] : List Nat) ++ [')'] ∧
      Single.procedureText [] "SP1".data ([1, 2] : List Nat)
        = "CALL ".data ++ '"' :: "SP1".data ++ "\"(".data
            ++ SapDb.placeholders ([1, 2] : List Nat) ++ [')']) ∧
    Multi.procedureText true false "SP1".data ([1, 2] : List Nat)
      = "CALL {db}.\"SP1\"(?,?)".data := by
  refine ⟨c8_procedure_text "SP1".data "S1".data ([1, 2] : List Nat) SapDb.multiHana
    (by decide), by decide⟩

/-! ### Claim C9 -/

/-- C9 (counterexample): the claim says disconnect on an
already-disconnected instance is a no-op in both variants.  In the
multi-backend variant the handles survive the first disconnect, so a
second disconnect of a PostgreSQL instance performs the native pool `end`
again — its native-effect trace is not empty. -/
theorem c9_second_disconnect_not_noop :
    (Multi.disconnect SapDb.multiPg true).2.2 = .ok () ∧
    (Multi.disconnect SapDb.multiPgDisc true).2.1 = [Effect.endPgPool] ∧
    (Multi.disconnect SapDb.multiPgDisc true).2.1 ≠ ([] : List Effect) := by
  decide

/-- C9 (amended): disconnect on a never-connected instance is a no-op
(no native effect, success) in both variants; after a successful
disconnect, a second disconnect is a no-op only in the single-backend
variant (its pool field was cleared), while the multi-backend variant —
whose fields survive — repeats the native teardown of a PostgreSQL
instance. -/
theorem c9_disconnect_noop_cases
    (s sc : Single.Database) (m m2 : Multi.Database) (ok ok2 : Bool)
    (hs : s.pool = none) (hsc : sc.pool.isSome = true)
    (hm1 : m.isHana = false) (hm2 : m.isPostgres = false) (hm3 : m.mssqlConnect = false)
    (hp0 : m2.isHana = false) (hp1 : m2.isPostgres = true) (hp2 : m2.pgPool.isSome = true) :
    Single.disconnect s ok = (s, [], .ok ()) ∧
    Single.disconnect (Single.disconnect sc true).1 ok2
      = ((Single.disconnect sc true).1, [], .ok ()) ∧
    Multi.disconnect m ok = (m, [], .ok ()) ∧
    (Multi.disconnect (Multi.disconnect m2 ok).1 ok2).2.1 = [Effect.endPgPool] := by
  obtain ⟨pl, hpl⟩ := Option.isSome_iff_exists.mp hsc
  obtain ⟨pc, hpc⟩ := Option.isSome_iff_exists.mp hp2
  have heff : Multi.disconnectEffects m2 = [Effect.endPgPool] := by
    simp [Multi.disconnectEffects, hp0, hp1, hpc]
  refine ⟨?_, ?_, ?_, ?_⟩
  · simp [Single.disconnect, hs]
  · simp [Single.disconnect, hpl]
  · simp [Multi.disconnect, Multi.disconnectEffects, hm1, hm2, hm3]
  · rw [multi_disconnect_state m2 ok,
      multi_disconnect_effects m2 ok2 (by rw [heff]; rfl), heff]

/-- C9 (witness): the amended theorem applied at the fresh and connected
fixtures of both variants. -/
theorem c9_disconnect_noop_cases_witness :
    Single.disconnect SapDb.singleDb0 true = (SapDb.singleDb0, [], .ok ()) ∧
    Single.disconnect (Single.disconnect SapDb.singleConnected true).1 true
      = ((Single.disconnect SapDb.singleConnected true).1, [], .ok ()) ∧
    Multi.disconnect Multi.initial true = (Multi.initial, [], .ok ()) ∧
    (Multi.disconnect (Multi.disconnect SapDb.multiPg true).1 true).2.1
      = [Effect.endPgPool] :=
  c9_disconnect_noop_cases SapDb.singleDb0 SapDb.singleConnected Multi.initial
    SapDb.multiPg true true (by decide) (by decide) (by decide) (by decide) (by decide)
    (by decide) (by decide) (by decide)

/-! ### Claim C10 -/

/-- C10: for the MSSQL backend, with at least one parameter and more `?`
occurrences than parameters, the rewrite loop still replaces every `?`
occurrence with successive indexed names (the whole single pass), leaves
no `?` character, raises no error (the translation is total), binds only
the first N names — the name carrying index N appears in the rewritten
text but is absent from the bindings. -/
theorem c10_excess_placeholders
    {α : Type} (s : List Char) (params : List α)
    (hne : params ≠ []) (hlt : params.length < countQ s) :
    countQ (mssqlPrepare s params).1 = 0 ∧
    (mssqlPrepare s params).1 = rewriteAux s 0 ∧
    (mssqlPrepare s params).2.length = params.length ∧
    paramName params.length <:+: (mssqlPrepare s params).1 ∧
    inputName params.length ∉ (mssqlPrepare s params).2.map Prod.fst := by
  have hlen : params.length > 0 := List.length_pos.mpr hne
  have hpre : mssqlPrepare s params = (mssqlRewriteLoop s 0, mssqlBindings params) := by
    simp [mssqlPrepare, hlen]
  refine ⟨?_, ?_, ?_, ?_, ?_⟩
  · rw [hpre]; exact mssqlRewriteLoop_countQ s 0
  · rw [hpre]; exact mssqlRewriteLoop_eq_rewriteAux s 0
  · rw [hpre]; exact mssqlBindings_length params
  · rw [hpre]
    have h := paramName_infix_rewriteAux 0 params.length hlt
    simpa [mssqlRewriteLoop_eq_rewriteAux] using h
  · rw [hpre]
    exact inputName_excess_unbound params

/-- C10 (witness): the theorem applied at a query with three `?` markers
and one parameter, plus the concrete rewritten text showing the excess
names. -/
theorem c10_excess_placeholders_witness :
    (countQ (mssqlPrepare "a=? OR b=? OR c=?".data ([7] : List Nat)).1 = 0 ∧
      (mssqlPrepare "a=? OR b=? OR c=?".data ([7] : List Nat)).1
        = rewriteAux "a=? OR b=? OR c=?".data 0 ∧
      (mssqlPrepare "a=? OR b=? OR c=?".data ([7] : List Nat)).2.length
        = ([7] : List Nat).length ∧
      paramName ([7] : List Nat).length
        <:+: (mssqlPrepare "a=? OR b=? OR c=?".data ([7] : List Nat)).1 ∧
      inputName ([7] : List Nat).length
        ∉ (mssqlPrepare "a=? OR b=? OR c=?".data ([7] : List Nat)).2.map Prod.fst) ∧
    (mssqlPrepare "a=? OR b=? OR c=?".data ([7] : List Nat)).1
      = "a=@mssqlboundparm0 OR b=@mssqlboundparm1 OR c=@mssqlboundparm2".data := by
  refine ⟨c10_excess_placeholders "a=? OR b=? OR c=?".data ([7] : List Nat)
    (by decide) (by decide), by decide⟩

end SapDb
